import Mathlib

/-!
Shallow embedding of the query-construction and response-normalization layer
of the tradeinternal-mcp repository (files
`tradeinternal_mcp_server/repository.py` and `tradeinternal_mcp_server/server.py`).

Python values flowing through the code are modelled by the inductive type
`PyValue`; Python exceptions by `PyErr` together with the `Except` monad.
Machine floats are modelled as exact rationals (no claim below depends on
floating-point rounding).  The database gateway (`DatabaseClient.fetch_all`)
is an external collaborator and is modelled as a function from the built
query to a list of rows.
-/

/-- A Python runtime error relevant to the embedded code: `NameError`
(undefined variable), `ValueError`, `TypeError`, and `KeyError`. -/
inductive PyErr where
  | nameError (msg : String)
  | valueError (msg : String)
  | typeError (msg : String)
  | keyError (key : String)
deriving DecidableEq, Repr

/-- Gregorian calendar/clock value, modelling `datetime.datetime`
(timezone-naive; no claim involves timezones). -/
structure PyDateTime where
  year : Nat
  month : Nat
  day : Nat
  hour : Nat
  minute : Nat
  second : Nat
  microsecond : Nat
deriving DecidableEq, Repr

/-- Calendar date, modelling `datetime.date`. -/
structure PyDate where
  year : Nat
  month : Nat
  day : Nat
deriving DecidableEq, Repr

/-- The Python values the embedded code manipulates.  `float` and `decimal`
carry exact rationals; `bytes` is a list of byte values; `dict` is an
association list in insertion order (Python 3.7+ dicts preserve insertion
order and the embedded code never creates duplicate keys). -/
inductive PyValue where
  | none
  | bool (b : Bool)
  | int (n : Int)
  | float (q : Rat)
  | str (s : String)
  | bytes (bs : List Nat)
  | datetime (d : PyDateTime)
  | date (d : PyDate)
  | decimal (q : Rat)
  | list (xs : List PyValue)
  | dict (entries : List (String × PyValue))

/-- A database row, as produced by pymysql's `DictCursor`: an ordered mapping
from column name to value. -/
abbrev Row := List (String × PyValue)

/-- Python `dict` key lookup on a `Row` (first match; the rows built by the
code have unique keys). -/
def rowLookup : Row → String → Option PyValue
  | [], _ => Option.none
  | (k, v) :: rest, key => if k = key then some v else rowLookup rest key

/-- Python `row[key]`: the value, or a raised `KeyError`. -/
def pyGetItem (r : Row) (key : String) : Except PyErr PyValue :=
  match rowLookup r key with
  | some v => Except.ok v
  | Option.none => Except.error (PyErr.keyError key)

/-- Python `row.get(key)`: the value, or `None` when the key is absent. -/
def pyDictGet (r : Row) (key : String) : PyValue :=
  (rowLookup r key).getD PyValue.none

/-- Python `row[key] = v`: replace the value in place when the key exists,
else append the new binding. -/
def dictSet (r : Row) (key : String) (v : PyValue) : Row :=
  match rowLookup r key with
  | some _ => r.map (fun p => if p.1 = key then (key, v) else p)
  | Option.none => r ++ [(key, v)]

/-- Faithful embedding of `_normalize_time_frame` (repository.py lines
24-40).  The first branch of the source reads `if vahalue == "1":`, and the
name `vahalue` is not defined anywhere in the module, so evaluating the
condition raises `NameError` before any comparison can happen — for every
input string, since the first condition is always evaluated first.  The
remaining branches are kept to mirror the source text but are unreachable. -/
def _normalize_time_frame (value : String) : Except PyErr String := do
  let vahalue ← (Except.error (PyErr.nameError "name 'vahalue' is not defined") : Except PyErr String)
  if vahalue == "1" then pure "1m"
  else if value == "5" then pure "5m"
  else if value == "15" then pure "15m"
  else if value == "30" then pure "30m"
  else if value == "45" then pure "45m"
  else if value == "60" then pure "1H"
  else pure value

/-- The mapping `_normalize_time_frame` evidently intends (the source's
branches with the undefined name `vahalue` read as the parameter `value`,
which is what the function's docstring and every caller expect). -/
def normalize_time_frame_intended (value : String) : String :=
  if value == "1" then "1m"
  else if value == "5" then "5m"
  else if value == "15" then "15m"
  else if value == "30" then "30m"
  else if value == "45" then "45m"
  else if value == "60" then "1H"
  else value

/-- Characters allowed by the character class `[A-Za-z0-9_]` of
`ALLOWED_IDENTIFIER` (repository.py line 14). -/
def isIdentChar (c : Char) : Bool :=
  (('A' ≤ c && c ≤ 'Z') || ('a' ≤ c && c ≤ 'z') || ('0' ≤ c && c ≤ '9') || c = '_')

/-- Python `re.match` of the pattern `^[A-Za-z0-9_]+$` against `s`
(repository.py line 19).  Python's `$` (without `re.MULTILINE`) matches at
the end of the string or just before a single newline at the end of the
string, so the pattern accepts a nonempty run of word characters optionally
followed by exactly one trailing `'\n'`. -/
def pyMatchIdent (s : String) : Bool :=
  (decide (s.data ≠ []) && s.data.all isIdentChar)
    || (decide (s.data.dropLast ≠ []) && s.data.dropLast.all isIdentChar
          && decide (s.data.getLast? = some '\n'))

/-- Faithful embedding of `_sanitize_identifier` (repository.py lines 17-21).
Python `value or default` selects `default` exactly when `value` is the
empty string (`None` is never passed by the callers). -/
def _sanitize_identifier (value default : String) : Except PyErr String :=
  let candidate := if value = "" then default else value
  if pyMatchIdent candidate then Except.ok candidate
  else Except.error (PyErr.valueError ("Invalid identifier provided: " ++ candidate))

/-- Immutable identifier configuration held by each of the four repository
classes after `__init__` (the fields `_table`, `_symbol_column`,
`_time_frame_column`, `_timestamp_column`, `_exchange_column`). -/
structure RepoConfig where
  table : String
  symbolColumn : String
  timeFrameColumn : String
  timestampColumn : String
  exchangeColumn : Option String
deriving DecidableEq, Repr

/-- The `_exchange_column` assignment shared by the four constructors:
`_sanitize_identifier(exchange_column, "exchange") if exchange_column else None`.
Python truthiness of `Optional[str]` makes both `None` and `""` select the
`else None` branch. -/
def initExchangeColumn (exchange_column : Option String) : Except PyErr (Option String) :=
  match exchange_column with
  | Option.none => Except.ok Option.none
  | some s =>
    if s = "" then Except.ok Option.none
    else do pure (some (← _sanitize_identifier s "exchange"))

/-- `CandleRepository.__init__` (repository.py lines 60-76): every table and
column name passes through `_sanitize_identifier` before being stored, so a
failure prevents construction. -/
def CandleRepository.init (table symbol_column time_frame_column timestamp_column : String)
    (exchange_column : Option String) : Except PyErr RepoConfig := do
  let t ← _sanitize_identifier table "tradingview_candle_data"
  let sc ← _sanitize_identifier symbol_column "symbol"
  let tfc ← _sanitize_identifier time_frame_column "time_frame"
  let tsc ← _sanitize_identifier timestamp_column "timestamp"
  let ec ← initExchangeColumn exchange_column
  pure ⟨t, sc, tfc, tsc, ec⟩

/-- `VolumeFootprintRepository.__init__` (repository.py lines 140-156). -/
def VolumeFootprintRepository.init (table symbol_column time_frame_column timestamp_column : String)
    (exchange_column : Option String) : Except PyErr RepoConfig := do
  let t ← _sanitize_identifier table "tradingview_volume_footprint"
  let sc ← _sanitize_identifier symbol_column "symbol"
  let tfc ← _sanitize_identifier time_frame_column "time_frame"
  let tsc ← _sanitize_identifier timestamp_column "timestamp"
  let ec ← initExchangeColumn exchange_column
  pure ⟨t, sc, tfc, tsc, ec⟩

/-- `CandleCvdRepository.__init__` (repository.py lines 260-276). -/
def CandleCvdRepository.init (table symbol_column time_frame_column timestamp_column : String)
    (exchange_column : Option String) : Except PyErr RepoConfig := do
  let t ← _sanitize_identifier table "tradingview_candle_cvd"
  let sc ← _sanitize_identifier symbol_column "symbol"
  let tfc ← _sanitize_identifier time_frame_column "time_frame"
  let tsc ← _sanitize_identifier timestamp_column "timestamp"
  let ec ← initExchangeColumn exchange_column
  pure ⟨t, sc, tfc, tsc, ec⟩

/-- `EmaRepository.__init__` (repository.py lines 356-372). -/
def EmaRepository.init (table symbol_column time_frame_column timestamp_column : String)
    (exchange_column : Option String) : Except PyErr RepoConfig := do
  let t ← _sanitize_identifier table "tradingview_ema"
  let sc ← _sanitize_identifier symbol_column "symbol"
  let tfc ← _sanitize_identifier time_frame_column "time_frame"
  let tsc ← _sanitize_identifier timestamp_column "timestamp"
  let ec ← initExchangeColumn exchange_column
  pure ⟨t, sc, tfc, tsc, ec⟩

/-- The configuration produced by `CandleRepository.__init__` with its
declared defaults. -/
def defaultCandleConfig : RepoConfig :=
  ⟨"tradingview_candle_data", "symbol", "time_frame", "timestamp", some "exchange"⟩

/-- The configuration produced by `VolumeFootprintRepository.__init__` with
its declared defaults (`exchange_column` defaults to `None`). -/
def defaultFootprintConfig : RepoConfig :=
  ⟨"tradingview_volume_footprint", "symbol", "time_frame", "timestamp", Option.none⟩

/-- The configuration produced by `CandleCvdRepository.__init__` with its
declared defaults. -/
def defaultCvdConfig : RepoConfig :=
  ⟨"tradingview_candle_cvd", "symbol", "time_frame", "timestamp", some "exchange"⟩

/-- The configuration produced by `EmaRepository.__init__` with its declared
defaults. -/
def defaultEmaConfig : RepoConfig :=
  ⟨"tradingview_ema", "symbol", "time_frame", "timestamp", some "exchange"⟩

/-- Zero-padded two-digit rendering of a field, as Python `strftime` and
`isoformat` produce. -/
def pad2 (n : Nat) : String :=
  if n < 10 then "0" ++ toString n else toString n

/-- Zero-padded four-digit rendering of a year. -/
def pad4 (n : Nat) : String :=
  if n < 10 then "000" ++ toString n
  else if n < 100 then "00" ++ toString n
  else if n < 1000 then "0" ++ toString n
  else toString n

/-- Zero-padded six-digit rendering of a microsecond count. -/
def pad6 (n : Nat) : String :=
  if n < 10 then "00000" ++ toString n
  else if n < 100 then "0000" ++ toString n
  else if n < 1000 then "000" ++ toString n
  else if n < 10000 then "00" ++ toString n
  else if n < 100000 then "0" ++ toString n
  else toString n

/-- `datetime.isoformat()` for a timezone-naive value: the fractional part is
omitted when the microsecond field is zero. -/
def PyDateTime.isoformat (d : PyDateTime) : String :=
  pad4 d.year ++ "-" ++ pad2 d.month ++ "-" ++ pad2 d.day ++ "T"
    ++ pad2 d.hour ++ ":" ++ pad2 d.minute ++ ":" ++ pad2 d.second
    ++ (if d.microsecond = 0 then "" else "." ++ pad6 d.microsecond)

/-- `date.isoformat()`. -/
def PyDate.isoformat (d : PyDate) : String :=
  pad4 d.year ++ "-" ++ pad2 d.month ++ "-" ++ pad2 d.day

/-- `strftime("%Y-%m-%d %H:%M:%S")` — the fixed display format used by
`_format_timestamp` (server.py line 293). -/
def strftimeDisplay (d : PyDateTime) : String :=
  pad4 d.year ++ "-" ++ pad2 d.month ++ "-" ++ pad2 d.day ++ " "
    ++ pad2 d.hour ++ ":" ++ pad2 d.minute ++ ":" ++ pad2 d.second

/-- Numeric value of an ASCII digit character. -/
def digitVal (c : Char) : Nat := c.toNat - 48

/-- Parse exactly `k` ASCII digits from the front of the character list,
returning their value and the remaining characters. -/
def takeDigits : Nat → List Char → Option (Nat × List Char)
  | 0, cs => some (0, cs)
  | _ + 1, [] => Option.none
  | k + 1, c :: cs =>
    if c.isDigit then
      (takeDigits k cs).map (fun p => (digitVal c * 10 ^ k + p.1, p.2))
    else Option.none

/-- Leap-year rule of the proleptic Gregorian calendar used by `datetime`. -/
def isLeapYear (y : Nat) : Bool :=
  y % 4 == 0 && (y % 100 != 0 || y % 400 == 0)

/-- Number of days in a month. -/
def daysInMonth (y m : Nat) : Nat :=
  if m = 2 then (if isLeapYear y then 29 else 28)
  else if m = 4 ∨ m = 6 ∨ m = 9 ∨ m = 11 then 30
  else 31

/-- Range validity of a calendar date, as `datetime` enforces. -/
def validDate (y m d : Nat) : Bool :=
  decide (1 ≤ y) && decide (y ≤ 9999) && decide (1 ≤ m) && decide (m ≤ 12)
    && decide (1 ≤ d) && decide (d ≤ daysInMonth y m)

/-- Range validity of a clock time. -/
def validTime (h mi s : Nat) : Bool :=
  decide (h ≤ 23) && decide (mi ≤ 59) && decide (s ≤ 59)

/-- Parse the `YYYY-MM-DD` prefix of an ISO string. -/
def parseIsoDate (cs : List Char) : Option (Nat × Nat × Nat × List Char) := do
  let (y, cs) ← takeDigits 4 cs
  match cs with
  | '-' :: cs =>
    let (m, cs) ← takeDigits 2 cs
    (match cs with
     | '-' :: cs => do
       let (d, cs) ← takeDigits 2 cs
       pure (y, m, d, cs)
     | _ => Option.none)
  | _ => Option.none

/-- Parse a complete ISO time-of-day suffix `HH[:MM[:SS[.fff|.ffffff]]]`,
requiring that it consume the whole remaining input. -/
def parseIsoTime (cs : List Char) : Option (Nat × Nat × Nat × Nat) := do
  let (h, cs) ← takeDigits 2 cs
  match cs with
  | [] => pure (h, 0, 0, 0)
  | ':' :: cs =>
    let (mi, cs) ← takeDigits 2 cs
    (match cs with
     | [] => pure (h, mi, 0, 0)
     | ':' :: cs => do
       let (s, cs) ← takeDigits 2 cs
       (match cs with
        | [] => pure (h, mi, s, 0)
        | '.' :: cs =>
          if cs.length = 3 then do
            let (f, cs) ← takeDigits 3 cs
            if cs = [] then pure (h, mi, s, f * 1000) else Option.none
          else if cs.length = 6 then do
            let (f, cs) ← takeDigits 6 cs
            if cs = [] then pure (h, mi, s, f) else Option.none
          else Option.none
        | _ => Option.none)
     | _ => Option.none)
  | _ => Option.none

/-- Model of `datetime.datetime.fromisoformat` restricted to the grammar the
program's data uses: a `YYYY-MM-DD` date, optionally followed by one
separator character and a `HH[:MM[:SS[.fff|.ffffff]]]` time, with calendar
and clock ranges validated.  Timezone offsets and the other extended ISO-8601
forms accepted by newer Python versions are outside the modelled subset and
are treated as parse failures. -/
def fromisoformat (s : String) : Option PyDateTime := do
  let (y, m, d, rest) ← parseIsoDate s.data
  let (hh, mi, ss, micro) ←
    match rest with
    | [] => some (0, 0, 0, 0)
    | _ :: timeChars => parseIsoTime timeChars
  if validDate y m d && validTime hh mi ss then
    some ⟨y, m, d, hh, mi, ss, micro⟩
  else Option.none

/-- One value conversion of `_serialize_row` (repository.py lines 43-54):
datetimes and dates become ISO strings, decimals become floats, everything
else passes through unchanged. -/
def _serialize_value (v : PyValue) : PyValue :=
  match v with
  | PyValue.datetime d => PyValue.str d.isoformat
  | PyValue.date d => PyValue.str d.isoformat
  | PyValue.decimal q => PyValue.float q
  | other => other

/-- Faithful embedding of `_serialize_row` (repository.py lines 43-54). -/
def _serialize_row (row : Row) : Row :=
  row.map (fun p => (p.1, _serialize_value p.2))

/-- Decode a byte list as UTF-8, modelling `bytes.decode("utf-8")` with
strict error handling: overlong encodings, surrogate code points, values
beyond U+10FFFF, and truncated or malformed sequences all fail. -/
def utf8DecodeAux : List Nat → String → Option String
  | [], acc => some acc
  | b :: bs, acc =>
    if b < 0x80 then utf8DecodeAux bs (acc.push (Char.ofNat b))
    else if b < 0xC2 then Option.none
    else if b < 0xE0 then
      match bs with
      | b2 :: bs2 =>
        if 0x80 ≤ b2 && b2 < 0xC0 then
          utf8DecodeAux bs2 (acc.push (Char.ofNat ((b - 0xC0) * 0x40 + (b2 - 0x80))))
        else Option.none
      | [] => Option.none
    else if b < 0xF0 then
      match bs with
      | b2 :: b3 :: bs3 =>
        if 0x80 ≤ b2 && b2 < 0xC0 && 0x80 ≤ b3 && b3 < 0xC0 then
          let cp := (b - 0xE0) * 0x1000 + (b2 - 0x80) * 0x40 + (b3 - 0x80)
          if cp < 0x800 || (0xD800 ≤ cp && cp ≤ 0xDFFF) then Option.none
          else utf8DecodeAux bs3 (acc.push (Char.ofNat cp))
        else Option.none
      | _ => Option.none
    else if b < 0xF5 then
      match bs with
      | b2 :: b3 :: b4 :: bs4 =>
        if 0x80 ≤ b2 && b2 < 0xC0 && 0x80 ≤ b3 && b3 < 0xC0 && 0x80 ≤ b4 && b4 < 0xC0 then
          let cp := (b - 0xF0) * 0x40000 + (b2 - 0x80) * 0x1000 + (b3 - 0x80) * 0x40 + (b4 - 0x80)
          if cp < 0x10000 || cp > 0x10FFFF then Option.none
          else utf8DecodeAux bs4 (acc.push (Char.ofNat cp))
        else Option.none
      | _ => Option.none
    else Option.none

/-- `bytes.decode("utf-8")`: the decoded text, or decode failure. -/
def utf8Decode (bs : List Nat) : Option String :=
  utf8DecodeAux bs ""

/-- The opening curly bracket character (written by code point to keep JSON
text out of the source of the embedding). -/
def lcurly : Char := Char.ofNat 123

/-- The closing curly bracket character. -/
def rcurly : Char := Char.ofNat 125

/-- Skip JSON whitespace (space, tab, newline, carriage return). -/
def skipJsonWs : List Char → List Char
  | c :: cs =>
    if c = ' ' || c = '\t' || c = '\n' || c = '\r' then skipJsonWs cs else c :: cs
  | [] => []

/-- Parse the body of a JSON string after the opening quote, handling the
single-character escapes.  `\uXXXX` escapes are outside the modelled subset
and are treated as parse failures. -/
def parseJsonStringBody : List Char → String → Option (String × List Char)
  | [], _ => Option.none
  | '"' :: cs, acc => some (acc, cs)
  | '\\' :: e :: cs, acc =>
    if e = '"' then parseJsonStringBody cs (acc.push '"')
    else if e = '\\' then parseJsonStringBody cs (acc.push '\\')
    else if e = '/' then parseJsonStringBody cs (acc.push '/')
    else if e = 'b' then parseJsonStringBody cs (acc.push (Char.ofNat 8))
    else if e = 'f' then parseJsonStringBody cs (acc.push (Char.ofNat 12))
    else if e = 'n' then parseJsonStringBody cs (acc.push '\n')
    else if e = 'r' then parseJsonStringBody cs (acc.push '\r')
    else if e = 't' then parseJsonStringBody cs (acc.push '\t')
    else Option.none
  | c :: cs, acc =>
    if c.toNat < 32 then Option.none else parseJsonStringBody cs (acc.push c)

/-- Take the maximal run of leading ASCII digits. -/
def takeDigitRun : List Char → List Char × List Char
  | c :: cs =>
    if c.isDigit then
      let p := takeDigitRun cs
      (c :: p.1, p.2)
    else ([], c :: cs)
  | [] => ([], [])

/-- Value of a digit run. -/
def digitsToNat (ds : List Char) : Nat :=
  ds.foldl (fun acc c => acc * 10 + digitVal c) 0

/-- Parse a JSON number.  Integer literals become Python `int`; literals with
a fraction or exponent become Python `float`, modelled as the exact rational
value (float rounding is not modelled). -/
def parseJsonNumber (cs : List Char) : Option (PyValue × List Char) :=
  let (neg, cs1) := match cs with
    | '-' :: rest => (true, rest)
    | _ => (false, cs)
  let (intds, cs2) := takeDigitRun cs1
  if intds.isEmpty then Option.none
  else if intds.length > 1 && intds.headD '0' = '0' then Option.none
  else
    let (hasFrac, fracds, cs3) := match cs2 with
      | '.' :: rest =>
        let p := takeDigitRun rest
        (true, p.1, p.2)
      | _ => (false, [], cs2)
    if hasFrac && fracds.isEmpty then Option.none
    else
      let (hasExp, expNeg, expds, cs4) := match cs3 with
        | e :: rest =>
          if e = 'e' || e = 'E' then
            match rest with
            | '+' :: rest2 => let p := takeDigitRun rest2; (true, false, p.1, p.2)
            | '-' :: rest2 => let p := takeDigitRun rest2; (true, true, p.1, p.2)
            | _ => let p := takeDigitRun rest; (true, false, p.1, p.2)
          else (false, false, [], cs3)
        | [] => (false, false, [], cs3)
      if hasExp && expds.isEmpty then Option.none
      else
        let mantissa : Int :=
          (if neg then -1 else 1) * Int.ofNat (digitsToNat (intds ++ fracds))
        if hasFrac || hasExp then
          let scale : Int := (if expNeg then -(Int.ofNat (digitsToNat expds))
                              else Int.ofNat (digitsToNat expds)) - Int.ofNat fracds.length
          some (PyValue.float ((mantissa : Rat) * (10 : Rat) ^ scale), cs4)
        else
          some (PyValue.int mantissa, cs4)

mutual

/-- Parse one JSON value; `fuel` bounds the recursion and always exceeds the
input length at the top-level call. -/
def parseJsonValue : Nat → List Char → Option (PyValue × List Char)
  | 0, _ => Option.none
  | fuel + 1, cs =>
    match skipJsonWs cs with
    | [] => Option.none
    | c :: cs1 =>
      if c = '"' then
        (parseJsonStringBody cs1 "").map (fun p => (PyValue.str p.1, p.2))
      else if c = lcurly then
        match skipJsonWs cs1 with
        | [] => Option.none
        | c2 :: cs2 =>
          if c2 = rcurly then some (PyValue.dict [], cs2)
          else parseJsonMembers fuel (c2 :: cs2) []
      else if c = '[' then
        match skipJsonWs cs1 with
        | ']' :: cs2 => some (PyValue.list [], cs2)
        | cs2 => parseJsonItems fuel cs2 []
      else
        match c :: cs1 with
        | 't' :: 'r' :: 'u' :: 'e' :: rest => some (PyValue.bool true, rest)
        | 'f' :: 'a' :: 'l' :: 's' :: 'e' :: rest => some (PyValue.bool false, rest)
        | 'n' :: 'u' :: 'l' :: 'l' :: rest => some (PyValue.none, rest)
        | cs2 => parseJsonNumber cs2

/-- Parse one or more `"key": value` object members, each followed by `,` or
the closing bracket. -/
def parseJsonMembers : Nat → List Char → List (String × PyValue) → Option (PyValue × List Char)
  | 0, _, _ => Option.none
  | fuel + 1, cs, acc => do
    let (key, cs1) ←
      match skipJsonWs cs with
      | '"' :: cs0 => parseJsonStringBody cs0 ""
      | _ => Option.none
    let cs2 ←
      match skipJsonWs cs1 with
      | ':' :: cs2 => some cs2
      | _ => Option.none
    let (v, cs3) ← parseJsonValue fuel cs2
    match skipJsonWs cs3 with
    | ',' :: cs4 => parseJsonMembers fuel cs4 (acc ++ [(key, v)])
    | c :: cs4 =>
      if c = rcurly then some (PyValue.dict (acc ++ [(key, v)]), cs4) else Option.none
    | [] => Option.none

/-- Parse one or more array items, each followed by `,` or `]`. -/
def parseJsonItems : Nat → List Char → List PyValue → Option (PyValue × List Char)
  | 0, _, _ => Option.none
  | fuel + 1, cs, acc => do
    let (v, cs1) ← parseJsonValue fuel cs
    match skipJsonWs cs1 with
    | ',' :: cs2 => parseJsonItems fuel cs2 (acc ++ [v])
    | ']' :: cs2 => some (PyValue.list (acc ++ [v]), cs2)
    | _ => Option.none

end

/-- Model of `json.loads`: parse one JSON document with nothing but
whitespace around it.  The modelled grammar is standard JSON (objects,
arrays, strings with the single-character escapes, numbers, the three
constants); Python's non-standard `NaN`/`Infinity` extensions and `\uXXXX`
escapes are outside the subset and treated as parse failures. -/
def json_loads (s : String) : Option PyValue :=
  match parseJsonValue (s.length + 1) s.data with
  | some (v, rest) => if skipJsonWs rest = [] then some v else Option.none
  | Option.none => Option.none

/-- The `levels` post-processing block of
`VolumeFootprintRepository.fetch_volume_footprints` (repository.py lines
239-251), applied to the already-serialized value of the `levels` field:
bytes are tentatively UTF-8-decoded (kept as bytes when decoding fails), and
a string value is tentatively JSON-parsed (kept as the original string when
parsing fails).  Both fallbacks come from `except` clauses, so the block
never raises. -/
def normalizeLevels (v : PyValue) : PyValue :=
  let v1 := match v with
    | PyValue.bytes bs =>
      match utf8Decode bs with
      | some s => PyValue.str s
      | Option.none => PyValue.bytes bs
    | other => other
  match v1 with
  | PyValue.str s =>
    (match json_loads s with
     | some parsed => parsed
     | Option.none => PyValue.str s)
  | other => other

/-- The same block at row level: `serialized.get("levels")` is read, and the
`levels` entry is replaced by the normalized value when the key is present
(when absent, `get` returns `None`, neither branch fires, and the row is
unchanged). -/
def normalizeLevelsInRow (serialized : Row) : Row :=
  match rowLookup serialized "levels" with
  | some v => dictSet serialized "levels" (normalizeLevels v)
  | Option.none => serialized

/-- A SQL statement as handed to `DatabaseClient.fetch_all`: the statement
text and the ordered bound-parameter list. -/
structure Query where
  sql : String
  params : List PyValue

/-- Python `" ".join(parts)`. -/
def joinSpace : List String → String
  | [] => ""
  | [s] => s
  | s :: rest => s ++ " " ++ joinSpace rest

/-- The limit clamp `max(1, min(limit, 1000))` shared by all four fetch
methods (repository.py lines 102, 182, 302, 398). -/
def clampLimit (limit : Int) : Int := max 1 (min limit 1000)

/-- The statement/parameter construction of `CandleRepository.fetch_candles`
(repository.py lines 105-129), taking the already-normalized time frame and
the already-clamped limit.  Requesting an exchange filter without a
configured exchange column raises `ValueError` before anything reaches the
gateway. -/
def buildCandleQuery (cfg : RepoConfig) (symbol time_frame : String)
    (exchange start_timestamp end_timestamp : Option String) (limit : Int) :
    Except PyErr Query := do
  let sql_parts : List String :=
    ["SELECT time_frame, symbol, " ++ cfg.timestampColumn
       ++ ", open, high, low, close, volume FROM " ++ cfg.table,
     "WHERE " ++ cfg.symbolColumn ++ " = %s AND " ++ cfg.timeFrameColumn ++ " = %s"]
  let params : List PyValue := [PyValue.str symbol, PyValue.str time_frame]
  let (sql_parts, params) ←
    match exchange with
    | Option.none => pure (sql_parts, params)
    | some ex =>
      match cfg.exchangeColumn with
      | Option.none =>
        Except.error (PyErr.valueError "Exchange filtering requested but no exchange column configured.")
      | some col =>
        pure (sql_parts ++ ["AND " ++ col ++ " = %s"], params ++ [PyValue.str ex])
  let (sql_parts, params) :=
    match start_timestamp with
    | Option.none => (sql_parts, params)
    | some st => (sql_parts ++ ["AND " ++ cfg.timestampColumn ++ " >= %s"], params ++ [PyValue.str st])
  let (sql_parts, params) :=
    match end_timestamp with
    | Option.none => (sql_parts, params)
    | some en => (sql_parts ++ ["AND " ++ cfg.timestampColumn ++ " <= %s"], params ++ [PyValue.str en])
  let sql_parts := sql_parts ++ ["ORDER BY " ++ cfg.timestampColumn ++ " DESC", "LIMIT %s"]
  let params := params ++ [PyValue.int limit]
  pure ⟨joinSpace sql_parts, params⟩

/-- Faithful embedding of `CandleRepository.fetch_candles` (repository.py
lines 91-134).  The gateway `g` models `DatabaseClient.fetch_all` on a
successful execution. -/
def fetch_candles (cfg : RepoConfig) (g : Query → List Row)
    (symbol time_frame : String) (limit : Int)
    (exchange start_timestamp end_timestamp : Option String) :
    Except PyErr (List Row) := do
  let limit := clampLimit limit
  let time_frame ← _normalize_time_frame time_frame
  let q ← buildCandleQuery cfg symbol time_frame exchange start_timestamp end_timestamp limit
  let rows := g q
  pure (rows.reverse.map _serialize_row)

/-- The `select_columns` list of
`VolumeFootprintRepository.fetch_volume_footprints` (repository.py lines
185-205): the configured time-frame, symbol, timestamp (and optional
exchange) columns are aliased in the SELECT list. -/
def footprintSelectColumns (cfg : RepoConfig) : List String :=
  ["fp_id",
   cfg.timeFrameColumn ++ " AS time_frame",
   cfg.symbolColumn ++ " AS symbol",
   cfg.timestampColumn ++ " AS timestamp"]
  ++ (match cfg.exchangeColumn with
      | some e => [e ++ " AS exchange"]
      | Option.none => [])
  ++ ["poc", "vah", "val", "volume_delta", "levels", "total_fp_volume",
      "volume_diff", "created_at", "updated_at"]

/-- Python `", ".join(parts)`. -/
def joinComma : List String → String
  | [] => ""
  | [s] => s
  | s :: rest => s ++ ", " ++ joinComma rest

/-- The statement/parameter construction of
`VolumeFootprintRepository.fetch_volume_footprints` (repository.py lines
185-231). -/
def buildFootprintQuery (cfg : RepoConfig) (symbol time_frame : String)
    (exchange start_timestamp end_timestamp : Option String) (limit : Int) :
    Except PyErr Query := do
  let sql_parts : List String :=
    ["SELECT " ++ joinComma (footprintSelectColumns cfg) ++ " FROM " ++ cfg.table,
     "WHERE " ++ cfg.symbolColumn ++ " = %s AND " ++ cfg.timeFrameColumn ++ " = %s"]
  let params : List PyValue := [PyValue.str symbol, PyValue.str time_frame]
  let (sql_parts, params) ←
    match exchange with
    | Option.none => pure (sql_parts, params)
    | some ex =>
      match cfg.exchangeColumn with
      | Option.none =>
        Except.error (PyErr.valueError "Exchange filtering requested but no exchange column configured.")
      | some col =>
        pure (sql_parts ++ ["AND " ++ col ++ " = %s"], params ++ [PyValue.str ex])
  let (sql_parts, params) :=
    match start_timestamp with
    | Option.none => (sql_parts, params)
    | some st => (sql_parts ++ ["AND " ++ cfg.timestampColumn ++ " >= %s"], params ++ [PyValue.str st])
  let (sql_parts, params) :=
    match end_timestamp with
    | Option.none => (sql_parts, params)
    | some en => (sql_parts ++ ["AND " ++ cfg.timestampColumn ++ " <= %s"], params ++ [PyValue.str en])
  let sql_parts := sql_parts ++ ["ORDER BY " ++ cfg.timestampColumn ++ " DESC", "LIMIT %s"]
  let params := params ++ [PyValue.int limit]
  pure ⟨joinSpace sql_parts, params⟩

/-- Faithful embedding of
`VolumeFootprintRepository.fetch_volume_footprints` (repository.py lines
171-254), including the per-row `levels` normalization that follows
serialization. -/
def fetch_volume_footprints (cfg : RepoConfig) (g : Query → List Row)
    (symbol time_frame : String) (limit : Int)
    (exchange start_timestamp end_timestamp : Option String) :
    Except PyErr (List Row) := do
  let limit := clampLimit limit
  let time_frame ← _normalize_time_frame time_frame
  let q ← buildFootprintQuery cfg symbol time_frame exchange start_timestamp end_timestamp limit
  let rows := g q
  pure (rows.reverse.map (fun row => normalizeLevelsInRow (_serialize_row row)))

/-- The `select_columns` list of `CandleCvdRepository.fetch_cvd`
(repository.py lines 305-320), with the `None` placeholder for a missing
exchange column filtered out. -/
def cvdSelectColumns (cfg : RepoConfig) : List String :=
  ["cvd_id"]
  ++ (match cfg.exchangeColumn with
      | some e => [e ++ " AS exchange"]
      | Option.none => [])
  ++ [cfg.symbolColumn ++ " AS symbol",
      cfg.timeFrameColumn ++ " AS time_frame",
      cfg.timestampColumn ++ " AS timestamp",
      "open", "high", "low", "close", "ohlc_color", "wick_color", "border_color"]

/-- The statement/parameter construction of `CandleCvdRepository.fetch_cvd`
(repository.py lines 305-346). -/
def buildCvdQuery (cfg : RepoConfig) (symbol time_frame : String)
    (exchange start_timestamp end_timestamp : Option String) (limit : Int) :
    Except PyErr Query := do
  let sql_parts : List String :=
    ["SELECT " ++ joinComma (cvdSelectColumns cfg) ++ " FROM " ++ cfg.table,
     "WHERE " ++ cfg.symbolColumn ++ " = %s AND " ++ cfg.timeFrameColumn ++ " = %s"]
  let params : List PyValue := [PyValue.str symbol, PyValue.str time_frame]
  let (sql_parts, params) ←
    match exchange with
    | Option.none => pure (sql_parts, params)
    | some ex =>
      match cfg.exchangeColumn with
      | Option.none =>
        Except.error (PyErr.valueError "Exchange filtering requested but no exchange column configured.")
      | some col =>
        pure (sql_parts ++ ["AND " ++ col ++ " = %s"], params ++ [PyValue.str ex])
  let (sql_parts, params) :=
    match start_timestamp with
    | Option.none => (sql_parts, params)
    | some st => (sql_parts ++ ["AND " ++ cfg.timestampColumn ++ " >= %s"], params ++ [PyValue.str st])
  let (sql_parts, params) :=
    match end_timestamp with
    | Option.none => (sql_parts, params)
    | some en => (sql_parts ++ ["AND " ++ cfg.timestampColumn ++ " <= %s"], params ++ [PyValue.str en])
  let sql_parts := sql_parts ++ ["ORDER BY " ++ cfg.timestampColumn ++ " DESC", "LIMIT %s"]
  let params := params ++ [PyValue.int limit]
  pure ⟨joinSpace sql_parts, params⟩

/-- Faithful embedding of `CandleCvdRepository.fetch_cvd` (repository.py
lines 291-350). -/
def fetch_cvd (cfg : RepoConfig) (g : Query → List Row)
    (symbol time_frame : String) (limit : Int)
    (exchange start_timestamp end_timestamp : Option String) :
    Except PyErr (List Row) := do
  let limit := clampLimit limit
  let time_frame ← _normalize_time_frame time_frame
  let q ← buildCvdQuery cfg symbol time_frame exchange start_timestamp end_timestamp limit
  let rows := g q
  pure (rows.reverse.map _serialize_row)

/-- The `select_columns` list of `EmaRepository.fetch_ema` (repository.py
lines 401-413). -/
def emaSelectColumns (cfg : RepoConfig) : List String :=
  ["e_id"]
  ++ (match cfg.exchangeColumn with
      | some e => [e ++ " AS exchange"]
      | Option.none => [])
  ++ [cfg.symbolColumn ++ " AS symbol",
      cfg.timeFrameColumn ++ " AS time_frame",
      cfg.timestampColumn ++ " AS timestamp",
      "20_ema", "50_ema", "100_ema", "200_ema", "date_time"]

/-- The statement/parameter construction of `EmaRepository.fetch_ema`
(repository.py lines 401-439). -/
def buildEmaQuery (cfg : RepoConfig) (symbol time_frame : String)
    (exchange start_timestamp end_timestamp : Option String) (limit : Int) :
    Except PyErr Query := do
  let sql_parts : List String :=
    ["SELECT " ++ joinComma (emaSelectColumns cfg) ++ " FROM " ++ cfg.table,
     "WHERE " ++ cfg.symbolColumn ++ " = %s AND " ++ cfg.timeFrameColumn ++ " = %s"]
  let params : List PyValue := [PyValue.str symbol, PyValue.str time_frame]
  let (sql_parts, params) ←
    match exchange with
    | Option.none => pure (sql_parts, params)
    | some ex =>
      match cfg.exchangeColumn with
      | Option.none =>
        Except.error (PyErr.valueError "Exchange filtering requested but no exchange column configured.")
      | some col =>
        pure (sql_parts ++ ["AND " ++ col ++ " = %s"], params ++ [PyValue.str ex])
  let (sql_parts, params) :=
    match start_timestamp with
    | Option.none => (sql_parts, params)
    | some st => (sql_parts ++ ["AND " ++ cfg.timestampColumn ++ " >= %s"], params ++ [PyValue.str st])
  let (sql_parts, params) :=
    match end_timestamp with
    | Option.none => (sql_parts, params)
    | some en => (sql_parts ++ ["AND " ++ cfg.timestampColumn ++ " <= %s"], params ++ [PyValue.str en])
  let sql_parts := sql_parts ++ ["ORDER BY " ++ cfg.timestampColumn ++ " DESC", "LIMIT %s"]
  let params := params ++ [PyValue.int limit]
  pure ⟨joinSpace sql_parts, params⟩

/-- Faithful embedding of `EmaRepository.fetch_ema` (repository.py lines
387-443). -/
def fetch_ema (cfg : RepoConfig) (g : Query → List Row)
    (symbol time_frame : String) (limit : Int)
    (exchange start_timestamp end_timestamp : Option String) :
    Except PyErr (List Row) := do
  let limit := clampLimit limit
  let time_frame ← _normalize_time_frame time_frame
  let q ← buildEmaQuery cfg symbol time_frame exchange start_timestamp end_timestamp limit
  let rows := g q
  pure (rows.reverse.map _serialize_row)

/-- Python truthiness of a value, as tested by `if not value:`
(server.py line 287). -/
def pyTruthy : PyValue → Bool
  | PyValue.none => false
  | PyValue.bool b => b
  | PyValue.int n => n != 0
  | PyValue.float q => q != 0
  | PyValue.str s => s != ""
  | PyValue.bytes bs => !bs.isEmpty
  | PyValue.datetime _ => true
  | PyValue.date _ => true
  | PyValue.decimal q => q != 0
  | PyValue.list xs => !xs.isEmpty
  | PyValue.dict entries => !entries.isEmpty

/-- Faithful embedding of `_format_timestamp` (server.py lines 286-293).
Falsy input (`None` or the empty string, for the values this function
receives) returns `None`; a string is parsed with
`datetime.fromisoformat`, reformatted on success, and returned verbatim on
`ValueError`; a truthy non-string would raise the uncaught `TypeError` that
`fromisoformat` throws for non-string arguments. -/
def _format_timestamp (value : PyValue) : Except PyErr (Option String) :=
  if !(pyTruthy value) then Except.ok Option.none
  else
    match value with
    | PyValue.str s =>
      (match fromisoformat s with
       | Option.none => Except.ok (some s)
       | some t => Except.ok (some (strftimeDisplay t)))
    | _ => Except.error (PyErr.typeError "fromisoformat: argument must be str")

/-- The `rows[0]["timestamp"] if rows else None` expression of the envelope
builders (server.py lines 297, 333): `None` for an empty list, else the
first row's `timestamp` item (a missing key raises `KeyError`). -/
def startIsoOf (rows : List Row) : Except PyErr PyValue :=
  match rows with
  | [] => Except.ok PyValue.none
  | r :: _ => pyGetItem r "timestamp"

/-- The `rows[-1]["timestamp"] if rows else None` expression of the envelope
builders (server.py lines 298, 334). -/
def endIsoOf (rows : List Row) : Except PyErr PyValue :=
  match rows.getLast? with
  | Option.none => Except.ok PyValue.none
  | some r => pyGetItem r "timestamp"

/-- The response envelope of `format_candle_response` (server.py lines
30-34 and 296-305). -/
structure CandleResponse where
  start_timestamp : Option String
  end_timestamp : Option String
  count : Nat
  candles : List Row

/-- Faithful embedding of `format_candle_response` (server.py lines
296-305): `rows[0]["timestamp"]` / `rows[-1]["timestamp"]` when `rows` is
nonempty (a `KeyError` propagates), else `None`. -/
def format_candle_response (rows : List Row) : Except PyErr CandleResponse := do
  let start_iso ← startIsoOf rows
  let end_iso ← endIsoOf rows
  let st ← _format_timestamp start_iso
  let en ← _format_timestamp end_iso
  pure ⟨st, en, rows.length, rows⟩

/-- The response envelope of `format_ema_response` (server.py lines 96-100
and 332-354). -/
structure EmaResponse where
  start_timestamp : Option String
  end_timestamp : Option String
  count : Nat
  ema : List Row

/-- The per-row EMA post-step of `format_ema_response` (server.py lines
338-347): `{**row, "_20_ema": row.get("20_ema"), ..., "_200_ema":
row.get("200_ema")}` — the four `get` calls read the original row, and the
underscore-prefixed keys are added (or overwritten) while every other
binding of the row is kept. -/
def emaRowPostStep (row : Row) : Row :=
  dictSet
    (dictSet
      (dictSet
        (dictSet row "_20_ema" (pyDictGet row "20_ema"))
        "_50_ema" (pyDictGet row "50_ema"))
      "_100_ema" (pyDictGet row "100_ema"))
    "_200_ema" (pyDictGet row "200_ema")

/-- Faithful embedding of `format_ema_response` (server.py lines 332-354). -/
def format_ema_response (rows : List Row) : Except PyErr EmaResponse := do
  let start_iso ← startIsoOf rows
  let end_iso ← endIsoOf rows
  let normalized_rows := rows.map emaRowPostStep
  let st ← _format_timestamp start_iso
  let en ← _format_timestamp end_iso
  pure ⟨st, en, rows.length, normalized_rows⟩

/-- The display form a string timestamp receives in the envelope: `None` for
the empty string (Python falsiness), the `strftime` rendering when
`fromisoformat` succeeds, the original string verbatim otherwise. -/
def displayTimestamp (s : String) : Option String :=
  if s = "" then Option.none
  else
    match fromisoformat s with
    | Option.none => some s
    | some t => some (strftimeDisplay t)

/-- The fixed SELECT-FROM clause text of `fetch_candles` (repository.py line
106): only the configured timestamp column and table name appear; the
configured symbol and time-frame columns do not. -/
def candleSelectFrom (cfg : RepoConfig) : String :=
  "SELECT time_frame, symbol, " ++ cfg.timestampColumn
    ++ ", open, high, low, close, volume FROM " ++ cfg.table

/-- A sample serialized EMA row used by concrete witnesses. -/
def emaRowExample : Row :=
  [("timestamp", PyValue.str "2024-03-04T05:06:07"),
   ("20_ema", PyValue.int 10), ("50_ema", PyValue.int 20),
   ("100_ema", PyValue.int 30), ("200_ema", PyValue.int 40)]

/-- The envelope `format_ema_response` produces for `[emaRowExample]`. -/
def emaRespExample : EmaResponse :=
  ⟨some "2024-03-04 05:06:07", some "2024-03-04 05:06:07", 1,
   [emaRowPostStep emaRowExample]⟩

/-- The query `buildCandleQuery` produces for the default configuration with
no optional filters, used by concrete witnesses. -/
def exampleCandleQuery : Query :=
  ⟨joinSpace
      ["SELECT time_frame, symbol, timestamp, open, high, low, close, volume FROM tradingview_candle_data",
       "WHERE symbol = %s AND time_frame = %s",
       "ORDER BY timestamp DESC", "LIMIT %s"],
   [PyValue.str "BTCUSDT", PyValue.str "1m", PyValue.int 5]⟩

/-- Decompose a successful `Except` bind. -/
theorem except_bind_ok {α β : Type} {x : Except PyErr α} {f : α → Except PyErr β} {b : β}
    (h : (x >>= f) = Except.ok b) : ∃ a, x = Except.ok a ∧ f a = Except.ok b := by
  cases x with
  | error e => simp [Bind.bind, Except.bind] at h
  | ok a =>
    refine ⟨a, rfl, ?_⟩
    simpa [Bind.bind, Except.bind] using h

/-- A successful sanitizer call returns the Python-truthy choice of value
and default, and that choice passes the pattern check. -/
theorem sanitize_ok {v d r : String} (h : _sanitize_identifier v d = Except.ok r) :
    pyMatchIdent r = true ∧ r = (if v = "" then d else v) := by
  simp only [_sanitize_identifier] at h
  generalize hc : (if v = "" then d else v) = c at h ⊢
  split at h
  next hm =>
    injection h with h2
    subst h2
    exact ⟨hm, rfl⟩
  next => exact Except.noConfusion h

/-- A successful exchange-column initialization stores only sanitized
identifiers. -/
theorem initExchangeColumn_ok {ec : Option String} {r : Option String}
    (h : initExchangeColumn ec = Except.ok r) :
    ∀ e, r = some e → pyMatchIdent e = true := by
  intro e he
  cases ec with
  | none =>
    simp only [initExchangeColumn] at h
    injection h with h2
    subst h2
    exact Option.noConfusion he
  | some s =>
    simp only [initExchangeColumn] at h
    split at h
    next =>
      injection h with h2
      subst h2
      exact Option.noConfusion he
    next =>
      obtain ⟨x, hx, hp⟩ := except_bind_ok h
      simp only [pure, Except.pure] at hp
      injection hp with h2
      subst h2
      injection he with h3
      subst h3
      exact (sanitize_ok hx).1

/-- Formatting a string timestamp yields its display form. -/
theorem format_timestamp_str (s : String) :
    _format_timestamp (PyValue.str s) = Except.ok (displayTimestamp s) := by
  by_cases h : s = ""
  · subst h; rfl
  · have hb : (s != "") = true := bne_iff_ne.mpr h
    simp only [_format_timestamp, pyTruthy, hb, displayTimestamp, if_neg h,
      Bool.not_true, Bool.false_eq_true, if_false]
    cases hf : fromisoformat s <;> rfl

/-- Unfolding lemma for `rowLookup` on a cons cell. -/
theorem rowLookup_cons (k : String) (w : PyValue) (t : Row) (key : String) :
    rowLookup ((k, w) :: t) key = if k = key then some w else rowLookup t key := rfl

/-- Looking up the written key after the in-place-update branch of
`dictSet`. -/
theorem rowLookup_map_set (r : Row) (key : String) (v : PyValue) :
    rowLookup (r.map (fun p => if p.1 = key then (key, v) else p)) key
      = (rowLookup r key).map (fun _ => v) := by
  induction r with
  | nil => rfl
  | cons p t ih =>
    obtain ⟨k, w⟩ := p
    rw [List.map_cons]
    by_cases hk : k = key
    · subst hk
      rw [if_pos (show ((k, w).1 : String) = k from rfl)]
      rw [rowLookup_cons, rowLookup_cons, if_pos rfl, if_pos rfl]
      rfl
    · rw [if_neg (show ¬ (((k, w).1 : String) = key) from hk)]
      rw [rowLookup_cons, rowLookup_cons, if_neg hk, if_neg hk, ih]

/-- Looking up a different key after the in-place-update branch of
`dictSet`. -/
theorem rowLookup_map_set_other (r : Row) (key key2 : String) (v : PyValue)
    (h : key2 ≠ key) :
    rowLookup (r.map (fun p => if p.1 = key then (key, v) else p)) key2
      = rowLookup r key2 := by
  induction r with
  | nil => rfl
  | cons p t ih =>
    obtain ⟨k, w⟩ := p
    rw [List.map_cons]
    by_cases hk : k = key
    · subst hk
      rw [if_pos (show ((k, w).1 : String) = k from rfl)]
      rw [rowLookup_cons, rowLookup_cons,
        if_neg (fun hh => h hh.symm), if_neg (fun hh => h hh.symm), ih]
    · rw [if_neg (show ¬ (((k, w).1 : String) = key) from hk)]
      rw [rowLookup_cons, rowLookup_cons]
      by_cases hk2 : k = key2
      · rw [if_pos hk2, if_pos hk2]
      · rw [if_neg hk2, if_neg hk2, ih]

/-- Lookup distributes over list append, preferring the first list. -/
theorem rowLookup_append (r r2 : Row) (key : String) :
    rowLookup (r ++ r2) key
      = (match rowLookup r key with
         | some v => some v
         | Option.none => rowLookup r2 key) := by
  induction r with
  | nil => rfl
  | cons p t ih =>
    obtain ⟨k, w⟩ := p
    rw [List.cons_append, rowLookup_cons, rowLookup_cons]
    by_cases hk : k = key
    · rw [if_pos hk, if_pos hk]
    · rw [if_neg hk, if_neg hk, ih]

/-- `dictSet` makes the written key map to the written value. -/
theorem rowLookup_dictSet_same (r : Row) (key : String) (v : PyValue) :
    rowLookup (dictSet r key v) key = some v := by
  unfold dictSet
  cases hl : rowLookup r key with
  | some w =>
    rw [rowLookup_map_set, hl]
    rfl
  | none =>
    show rowLookup (r ++ [(key, v)]) key = some v
    rw [rowLookup_append, hl]
    show rowLookup ((key, v) :: []) key = some v
    rw [rowLookup_cons, if_pos rfl]

/-- `dictSet` leaves every other key unchanged. -/
theorem rowLookup_dictSet_other (r : Row) (key key2 : String) (v : PyValue)
    (h : key2 ≠ key) :
    rowLookup (dictSet r key v) key2 = rowLookup r key2 := by
  unfold dictSet
  cases hl : rowLookup r key with
  | some w => exact rowLookup_map_set_other r key key2 v h
  | none =>
    show rowLookup (r ++ [(key, v)]) key2 = rowLookup r key2
    rw [rowLookup_append]
    cases hl2 : rowLookup r key2 with
    | some w => rfl
    | none =>
      show rowLookup ((key, v) :: []) key2 = Option.none
      rw [rowLookup_cons, if_neg (fun hh => h hh.symm)]
      rfl

/-- C1: the time-frame normalizer is claimed to be a deterministic total
function with no error path that maps "30" to "30m" and passes "1D" through
unchanged.  In the code the first branch condition reads the undefined name
`vahalue`, so every call — including "30" and "1D" — raises `NameError`
instead of returning a value. -/
theorem normalize_time_frame_always_raises :
    _normalize_time_frame "30" = Except.error (PyErr.nameError "name 'vahalue' is not defined") ∧
    _normalize_time_frame "1D" = Except.error (PyErr.nameError "name 'vahalue' is not defined") ∧
    ∀ value : String,
      _normalize_time_frame value = Except.error (PyErr.nameError "name 'vahalue' is not defined") :=
  ⟨rfl, rfl, fun _ => rfl⟩

/-- C3: every fetch on each of the four repositories is claimed to return
the reversal of the gateway's row sequence.  Because `_normalize_time_frame`
raises `NameError` on every input and each fetch calls it before contacting
the gateway, no fetch ever consults the gateway or returns a row sequence:
all four raise `NameError` for every configuration, gateway, and argument
list. -/
theorem fetch_never_returns_rows :
    ∀ (cfg : RepoConfig) (g : Query → List Row) (symbol time_frame : String) (limit : Int)
      (exchange start_timestamp end_timestamp : Option String),
      fetch_candles cfg g symbol time_frame limit exchange start_timestamp end_timestamp
          = Except.error (PyErr.nameError "name 'vahalue' is not defined") ∧
      fetch_volume_footprints cfg g symbol time_frame limit exchange start_timestamp end_timestamp
          = Except.error (PyErr.nameError "name 'vahalue' is not defined") ∧
      fetch_cvd cfg g symbol time_frame limit exchange start_timestamp end_timestamp
          = Except.error (PyErr.nameError "name 'vahalue' is not defined") ∧
      fetch_ema cfg g symbol time_frame limit exchange start_timestamp end_timestamp
          = Except.error (PyErr.nameError "name 'vahalue' is not defined") :=
  fun _ _ _ _ _ _ _ _ => ⟨rfl, rfl, rfl, rfl⟩

/-- C2: a fetch with an exchange argument on a repository configured with no
exchange column is claimed to fail with the invalid-filter `ValueError`.
The call does fail before any statement reaches the gateway (the result is
the same for every gateway), but with the normalizer's `NameError`, which is
raised at the time-frame normalization step — before the exchange-column
check can run — and is a different error than the invalid-filter one. -/
theorem footprint_exchange_filter_error_preempted :
    (∀ g : Query → List Row,
        fetch_volume_footprints defaultFootprintConfig g "BTCUSDT" "1D" 10
            (some "BINANCE") Option.none Option.none
          = Except.error (PyErr.nameError "name 'vahalue' is not defined")) ∧
    PyErr.nameError "name 'vahalue' is not defined"
      ≠ PyErr.valueError "Exchange filtering requested but no exchange column configured." :=
  ⟨fun _ => rfl, by decide⟩

/-- C6: the SQL text passed to the gateway on a fetch call is claimed to be
independent of the user-supplied values, with the values bound in a fixed
parameter order.  No fetch call ever passes a statement to the gateway: two
calls differing only in their user-supplied values both raise the
normalizer's `NameError` for every gateway, so neither statement text nor
parameter list is ever produced. -/
theorem fetch_candles_passes_no_statement :
    (∀ g : Query → List Row,
        fetch_candles defaultCandleConfig g "AAAUSD" "15" 100 Option.none Option.none Option.none
          = Except.error (PyErr.nameError "name 'vahalue' is not defined")) ∧
    (∀ g : Query → List Row,
        fetch_candles defaultCandleConfig g "BBBUSD" "1D" 7 Option.none Option.none Option.none
          = Except.error (PyErr.nameError "name 'vahalue' is not defined")) :=
  ⟨fun _ => rfl, fun _ => rfl⟩

/-- C7: each fetch is claimed to clamp the limit into [1, 1000] and bind the
clamped value as the LIMIT parameter.  The clamp expression itself does map
0 to 1 and 5000 to 1000 and fixes values inside the range, but the fetch
raises the normalizer's `NameError` on the immediately following line, so
the clamped value is never bound to any query parameter. -/
theorem fetch_candles_limit_never_bound :
    clampLimit 0 = 1 ∧ clampLimit 5000 = 1000 ∧ clampLimit 200 = 200 ∧
    (∀ g : Query → List Row,
        fetch_candles defaultCandleConfig g "BTCUSDT" "1H" 0 Option.none Option.none Option.none
          = Except.error (PyErr.nameError "name 'vahalue' is not defined")) ∧
    (∀ g : Query → List Row,
        fetch_candles defaultCandleConfig g "BTCUSDT" "1H" 5000 Option.none Option.none Option.none
          = Except.error (PyErr.nameError "name 'vahalue' is not defined")) :=
  ⟨by decide, by decide, by decide, fun _ => rfl, fun _ => rfl⟩

/-- C5: the levels normalization of `fetch_volume_footprints` never raises
for any row value: bytes are tentatively UTF-8-decoded (kept as bytes on
failure), strings are tentatively JSON-parsed (replaced by the parsed
structure on success and kept verbatim on failure); the JSON string encoding
of a one-entry object parses to that structure, "not json" stays the literal
string, non-bytes non-string values and rows without a `levels` key are
untouched.  Totality of the two fallback steps models the `except` clauses
of repository.py lines 241-251. -/
theorem levels_normalization_tolerant :
    (∀ bs : List Nat, utf8Decode bs = Option.none →
        normalizeLevels (PyValue.bytes bs) = PyValue.bytes bs) ∧
    (∀ (bs : List Nat) (s : String), utf8Decode bs = some s →
        normalizeLevels (PyValue.bytes bs) = normalizeLevels (PyValue.str s)) ∧
    (∀ s : String, json_loads s = Option.none →
        normalizeLevels (PyValue.str s) = PyValue.str s) ∧
    (∀ (s : String) (v : PyValue), json_loads s = some v →
        normalizeLevels (PyValue.str s) = v) ∧
    (normalizeLevels (PyValue.str "\x7b\"a\": 1\x7d") = PyValue.dict [("a", PyValue.int 1)]) ∧
    (normalizeLevels (PyValue.str "not json") = PyValue.str "not json") ∧
    (∀ r : Row, rowLookup r "levels" = Option.none → normalizeLevelsInRow r = r) ∧
    (∀ (r : Row) (v : PyValue), rowLookup r "levels" = some v →
        normalizeLevelsInRow r = dictSet r "levels" (normalizeLevels v)) := by
  refine ⟨?_, ?_, ?_, ?_, rfl, rfl, ?_, ?_⟩
  · intro bs h
    simp [normalizeLevels, h]
  · intro bs s h
    simp [normalizeLevels, h]
  · intro s h
    simp [normalizeLevels, h]
  · intro s v h
    simp [normalizeLevels, h]
  · intro r h
    simp [normalizeLevelsInRow, h]
  · intro r v h
    simp [normalizeLevelsInRow, h]

/-- Concrete instantiation of `levels_normalization_tolerant`: the byte 255
is not valid UTF-8, so a `levels` value of those bytes stays binary; and
"not json" fails JSON parsing, so it stays the literal string. -/
theorem levels_normalization_tolerant_witness :
    (utf8Decode [255] = Option.none ∧
      normalizeLevels (PyValue.bytes [255]) = PyValue.bytes [255]) ∧
    (json_loads "not json" = Option.none ∧
      normalizeLevels (PyValue.str "not json") = PyValue.str "not json") :=
  ⟨⟨rfl, levels_normalization_tolerant.1 [255] rfl⟩,
   ⟨rfl, levels_normalization_tolerant.2.2.1 "not json" rfl⟩⟩

/-- C9: every row of the EMA envelope is the source row with the four
underscore-prefixed keys added, each mapping to the value of its
numeric-prefixed original (via `row.get`), the originals retained, and every
other field unchanged. -/
theorem format_ema_response_dual_keys :
    (∀ (rows : List Row) (resp : EmaResponse),
        format_ema_response rows = Except.ok resp →
        resp.ema = rows.map emaRowPostStep ∧ resp.count = rows.length) ∧
    (∀ row : Row,
        rowLookup (emaRowPostStep row) "_20_ema" = some (pyDictGet row "20_ema") ∧
        rowLookup (emaRowPostStep row) "_50_ema" = some (pyDictGet row "50_ema") ∧
        rowLookup (emaRowPostStep row) "_100_ema" = some (pyDictGet row "100_ema") ∧
        rowLookup (emaRowPostStep row) "_200_ema" = some (pyDictGet row "200_ema")) ∧
    (∀ (row : Row) (key : String),
        key ≠ "_20_ema" → key ≠ "_50_ema" → key ≠ "_100_ema" → key ≠ "_200_ema" →
        rowLookup (emaRowPostStep row) key = rowLookup row key) ∧
    (∀ (row : Row) (v : PyValue), rowLookup row "20_ema" = some v →
        rowLookup (emaRowPostStep row) "20_ema" = some v ∧
        rowLookup (emaRowPostStep row) "_20_ema" = some v) := by
  have hother : ∀ (row : Row) (key : String),
      key ≠ "_20_ema" → key ≠ "_50_ema" → key ≠ "_100_ema" → key ≠ "_200_ema" →
      rowLookup (emaRowPostStep row) key = rowLookup row key := by
    intro row key h20 h50 h100 h200
    unfold emaRowPostStep
    rw [rowLookup_dictSet_other _ _ _ _ h200, rowLookup_dictSet_other _ _ _ _ h100,
      rowLookup_dictSet_other _ _ _ _ h50, rowLookup_dictSet_other _ _ _ _ h20]
  refine ⟨?_, ?_, hother, ?_⟩
  · intro rows resp h
    unfold format_ema_response at h
    obtain ⟨a, _, h⟩ := except_bind_ok h
    obtain ⟨b, _, h⟩ := except_bind_ok h
    obtain ⟨st, _, h⟩ := except_bind_ok h
    obtain ⟨en, _, h⟩ := except_bind_ok h
    simp only [pure, Except.pure] at h
    injection h with h2
    subst h2
    exact ⟨rfl, rfl⟩
  · intro row
    unfold emaRowPostStep
    refine ⟨?_, ?_, ?_, ?_⟩
    · rw [rowLookup_dictSet_other _ _ _ _ (by decide),
        rowLookup_dictSet_other _ _ _ _ (by decide),
        rowLookup_dictSet_other _ _ _ _ (by decide), rowLookup_dictSet_same]
    · rw [rowLookup_dictSet_other _ _ _ _ (by decide),
        rowLookup_dictSet_other _ _ _ _ (by decide), rowLookup_dictSet_same]
    · rw [rowLookup_dictSet_other _ _ _ _ (by decide), rowLookup_dictSet_same]
    · rw [rowLookup_dictSet_same]
  · intro row v hv
    constructor
    · rw [hother row "20_ema" (by decide) (by decide) (by decide) (by decide)]
      exact hv
    · have h20 : rowLookup (emaRowPostStep row) "_20_ema" = some (pyDictGet row "20_ema") := by
        unfold emaRowPostStep
        rw [rowLookup_dictSet_other _ _ _ _ (by decide),
          rowLookup_dictSet_other _ _ _ _ (by decide),
          rowLookup_dictSet_other _ _ _ _ (by decide), rowLookup_dictSet_same]
      rw [h20]
      unfold pyDictGet
      rw [hv]
      rfl

/-- Concrete instantiation of `format_ema_response_dual_keys` on a one-row
EMA result: the envelope's row list is the post-stepped row, and the
duplicate key `_20_ema` carries the original value of `20_ema`. -/
theorem format_ema_response_dual_keys_witness :
    (emaRespExample.ema = [emaRowExample].map emaRowPostStep ∧ emaRespExample.count = 1) ∧
    rowLookup (emaRowPostStep emaRowExample) "_20_ema" = some (PyValue.int 10) :=
  ⟨format_ema_response_dual_keys.1 [emaRowExample] emaRespExample rfl,
   (format_ema_response_dual_keys.2.2.2 emaRowExample (PyValue.int 10) rfl).2⟩

/-- C4 counterexample: the empty string is unparseable (`fromisoformat`
fails on it), so the claim requires it to pass through verbatim as the
envelope bound; but `_format_timestamp` tests Python falsiness first, so an
empty-string timestamp produces a null `start_timestamp`, not the verbatim
empty string. -/
theorem format_candle_empty_timestamp_counterexample :
    fromisoformat "" = Option.none ∧
    (format_candle_response [[("timestamp", PyValue.str "")]]).map
        (fun resp => resp.start_timestamp) = Except.ok Option.none ∧
    (Except.ok Option.none : Except PyErr (Option String)) ≠ Except.ok (some "") :=
  ⟨rfl, rfl, fun h => by injection h with h2; exact Option.noConfusion h2⟩

/-- C4 (amended): the envelope builder returns count = number of rows and
the first/last row's string timestamp in display form — reformatted when
`fromisoformat` succeeds, passed through verbatim when parsing fails on a
nonempty string, and null (rather than verbatim) for the empty string — and
both bounds are null with count 0 for the empty row list. -/
theorem format_candle_response_spec :
    (format_candle_response [] = Except.ok ⟨Option.none, Option.none, 0, []⟩) ∧
    (∀ (rows : List Row) (r0 rn : Row) (s e : String),
        rows.head? = some r0 → rows.getLast? = some rn →
        rowLookup r0 "timestamp" = some (PyValue.str s) →
        rowLookup rn "timestamp" = some (PyValue.str e) →
        format_candle_response rows
          = Except.ok ⟨displayTimestamp s, displayTimestamp e, rows.length, rows⟩) ∧
    (∀ s : String, s ≠ "" → fromisoformat s = Option.none → displayTimestamp s = some s) ∧
    (∀ (s : String) (t : PyDateTime), fromisoformat s = some t →
        displayTimestamp s = some (strftimeDisplay t)) ∧
    (displayTimestamp "" = Option.none) := by
  refine ⟨rfl, ?_, ?_, ?_, rfl⟩
  · intro rows r0 rn s e hh hl hs he
    have h1 : startIsoOf rows = Except.ok (PyValue.str s) := by
      cases rows with
      | nil => exact Option.noConfusion hh
      | cons r t =>
        injection hh with h2
        subst h2
        show pyGetItem r "timestamp" = Except.ok (PyValue.str s)
        unfold pyGetItem
        rw [hs]
    have h2 : endIsoOf rows = Except.ok (PyValue.str e) := by
      unfold endIsoOf
      rw [hl]
      show pyGetItem rn "timestamp" = Except.ok (PyValue.str e)
      unfold pyGetItem
      rw [he]
    unfold format_candle_response
    rw [h1, h2]
    show (_format_timestamp (PyValue.str s) >>= fun st =>
        _format_timestamp (PyValue.str e) >>= fun en =>
        pure (CandleResponse.mk st en rows.length rows)) = _
    rw [format_timestamp_str, format_timestamp_str]
    rfl
  · intro s hne hf
    unfold displayTimestamp
    rw [if_neg hne, hf]
  · intro s t hf
    by_cases hne : s = ""
    · subst hne
      rw [show fromisoformat "" = (Option.none : Option PyDateTime) from rfl] at hf
      exact Option.noConfusion hf
    · unfold displayTimestamp
      rw [if_neg hne, hf]

/-- Concrete instantiation of `format_candle_response_spec`: a one-row list
with a parseable ISO timestamp yields count 1 and both bounds in the fixed
display format. -/
theorem format_candle_response_spec_witness :
    format_candle_response [[("timestamp", PyValue.str "2024-01-02T03:04:05")]]
      = Except.ok ⟨some "2024-01-02 03:04:05", some "2024-01-02 03:04:05", 1,
          [[("timestamp", PyValue.str "2024-01-02T03:04:05")]]⟩ :=
  format_candle_response_spec.2.1
    [[("timestamp", PyValue.str "2024-01-02T03:04:05")]]
    [("timestamp", PyValue.str "2024-01-02T03:04:05")]
    [("timestamp", PyValue.str "2024-01-02T03:04:05")]
    "2024-01-02T03:04:05" "2024-01-02T03:04:05" rfl rfl rfl rfl

/-- C8 counterexample: "abc" followed by a newline is not a full match of
the character class (the newline is not in `[A-Za-z0-9_]`), yet the
sanitizer accepts it, because Python's `$` also matches just before one
trailing newline. -/
theorem sanitize_identifier_trailing_newline_counterexample :
    _sanitize_identifier "abc\n" "tradingview_candle_data" = Except.ok "abc\n" ∧
    ("abc\n".data.all isIdentChar) = false :=
  ⟨rfl, rfl⟩

/-- C8 (amended): the sanitizer chooses the candidate when nonempty and the
default otherwise, and succeeds exactly when the chosen value matches
`^[A-Za-z0-9_]+$` under Python `re.match` semantics — a nonempty run of
word characters, optionally followed by a single trailing newline that the
`$` anchor tolerates; every table and column name of
`CandleRepository.__init__` passes through the sanitizer, so a constructed
repository holds only pattern-accepted identifiers. -/
theorem sanitize_identifier_spec :
    (∀ value default : String, value ≠ "" →
        _sanitize_identifier value default
          = (if pyMatchIdent value then Except.ok value
             else Except.error (PyErr.valueError ("Invalid identifier provided: " ++ value)))) ∧
    (∀ default : String,
        _sanitize_identifier "" default
          = (if pyMatchIdent default then Except.ok default
             else Except.error (PyErr.valueError ("Invalid identifier provided: " ++ default)))) ∧
    (∀ s : String, pyMatchIdent s = true ↔
        ((s.data ≠ [] ∧ s.data.all isIdentChar = true)
          ∨ (s.data.dropLast ≠ [] ∧ s.data.dropLast.all isIdentChar = true
              ∧ s.data.getLast? = some '\n'))) ∧
    (∀ (t sc tfc tsc : String) (ec : Option String) (cfg : RepoConfig),
        CandleRepository.init t sc tfc tsc ec = Except.ok cfg →
        pyMatchIdent cfg.table = true ∧ pyMatchIdent cfg.symbolColumn = true
          ∧ pyMatchIdent cfg.timeFrameColumn = true ∧ pyMatchIdent cfg.timestampColumn = true
          ∧ ∀ ex, cfg.exchangeColumn = some ex → pyMatchIdent ex = true) := by
  refine ⟨?_, ?_, ?_, ?_⟩
  · intro v d hv
    simp only [_sanitize_identifier, if_neg hv]
  · intro d
    simp [_sanitize_identifier]
  · intro s
    simp only [pyMatchIdent, Bool.or_eq_true, Bool.and_eq_true, decide_eq_true_eq, and_assoc]
  · intro t sc tfc tsc ec cfg h
    unfold CandleRepository.init at h
    obtain ⟨a, ha, h⟩ := except_bind_ok h
    obtain ⟨b, hb, h⟩ := except_bind_ok h
    obtain ⟨c, hc, h⟩ := except_bind_ok h
    obtain ⟨d, hd, h⟩ := except_bind_ok h
    obtain ⟨ecs, hec, h⟩ := except_bind_ok h
    simp only [pure, Except.pure] at h
    injection h with h2
    subst h2
    exact ⟨(sanitize_ok ha).1, (sanitize_ok hb).1, (sanitize_ok hc).1, (sanitize_ok hd).1,
      initExchangeColumn_ok hec⟩

/-- Concrete instantiation of `sanitize_identifier_spec`: a nonempty
candidate is checked directly, and the default-built candle repository holds
a pattern-accepted table name. -/
theorem sanitize_identifier_spec_witness :
    (_sanitize_identifier "symbol" "zzz"
        = (if pyMatchIdent "symbol" then Except.ok "symbol"
           else Except.error (PyErr.valueError ("Invalid identifier provided: " ++ "symbol")))) ∧
    pyMatchIdent defaultCandleConfig.table = true :=
  ⟨sanitize_identifier_spec.1 "symbol" "zzz" (by decide),
   (sanitize_identifier_spec.2.2.2 "" "" "" "" (some "exchange") defaultCandleConfig rfl).1⟩

/-- C10: the SELECT clause of every statement `fetch_candles` constructs is
the fixed text "SELECT time_frame, symbol, [timestamp column], open, high,
low, close, volume FROM [table]" — it depends only on the configured
timestamp column and table, and the configured symbol and time-frame
columns appear only in the WHERE part that follows — while the other three
repositories alias their configured symbol, time-frame, and timestamp
columns inside the SELECT list. -/
theorem candle_select_list_fixed :
    (∀ cfg₁ cfg₂ : RepoConfig, cfg₁.timestampColumn = cfg₂.timestampColumn →
        cfg₁.table = cfg₂.table → candleSelectFrom cfg₁ = candleSelectFrom cfg₂) ∧
    (∀ (cfg : RepoConfig) (symbol time_frame : String)
        (exchange start_timestamp end_timestamp : Option String) (limit : Int) (q : Query),
        buildCandleQuery cfg symbol time_frame exchange start_timestamp end_timestamp limit
            = Except.ok q →
        ∃ restParts : List String,
          q.sql = joinSpace (candleSelectFrom cfg :: restParts) ∧
          restParts.headD ""
            = "WHERE " ++ cfg.symbolColumn ++ " = %s AND " ++ cfg.timeFrameColumn ++ " = %s") ∧
    (∀ cfg : RepoConfig,
        (cfg.symbolColumn ++ " AS symbol") ∈ footprintSelectColumns cfg ∧
        (cfg.timeFrameColumn ++ " AS time_frame") ∈ footprintSelectColumns cfg ∧
        (cfg.timestampColumn ++ " AS timestamp") ∈ footprintSelectColumns cfg) ∧
    (∀ cfg : RepoConfig,
        (cfg.symbolColumn ++ " AS symbol") ∈ cvdSelectColumns cfg ∧
        (cfg.timeFrameColumn ++ " AS time_frame") ∈ cvdSelectColumns cfg ∧
        (cfg.timestampColumn ++ " AS timestamp") ∈ cvdSelectColumns cfg) ∧
    (∀ cfg : RepoConfig,
        (cfg.symbolColumn ++ " AS symbol") ∈ emaSelectColumns cfg ∧
        (cfg.timeFrameColumn ++ " AS time_frame") ∈ emaSelectColumns cfg ∧
        (cfg.timestampColumn ++ " AS timestamp") ∈ emaSelectColumns cfg) := by
  refine ⟨?_, ?_, ?_, ?_, ?_⟩
  · intro cfg₁ cfg₂ h1 h2
    unfold candleSelectFrom
    rw [h1, h2]
  · intro cfg symbol time_frame exchange st en limit q h
    obtain ⟨tb, sc, tfc, tsc, ec⟩ := cfg
    cases exchange with
    | none =>
      cases st <;> cases en <;>
        (injection h with h2; subst h2; exact ⟨_, rfl, rfl⟩)
    | some ex =>
      cases ec with
      | none => exact Except.noConfusion h
      | some col =>
        cases st <;> cases en <;>
          (injection h with h2; subst h2; exact ⟨_, rfl, rfl⟩)
  · intro cfg
    obtain ⟨tb, sc, tfc, tsc, ec⟩ := cfg
    cases ec <;> simp [footprintSelectColumns]
  · intro cfg
    obtain ⟨tb, sc, tfc, tsc, ec⟩ := cfg
    cases ec <;> simp [cvdSelectColumns]
  · intro cfg
    obtain ⟨tb, sc, tfc, tsc, ec⟩ := cfg
    cases ec <;> simp [emaSelectColumns]

/-- Concrete instantiation of `candle_select_list_fixed`: changing the
configured symbol and time-frame columns leaves the candle SELECT clause
unchanged, and the default-configuration query starts with that clause
followed by the WHERE part. -/
theorem candle_select_list_fixed_witness :
    candleSelectFrom defaultCandleConfig
        = candleSelectFrom ⟨"tradingview_candle_data", "sym", "tf", "timestamp", Option.none⟩ ∧
    ∃ restParts : List String,
      exampleCandleQuery.sql = joinSpace (candleSelectFrom defaultCandleConfig :: restParts) ∧
      restParts.headD "" = "WHERE " ++ defaultCandleConfig.symbolColumn ++ " = %s AND "
          ++ defaultCandleConfig.timeFrameColumn ++ " = %s" :=
  ⟨candle_select_list_fixed.1 defaultCandleConfig
      ⟨"tradingview_candle_data", "sym", "tf", "timestamp", Option.none⟩ rfl rfl,
   candle_select_list_fixed.2.1 defaultCandleConfig "BTCUSDT" "1m"
      Option.none Option.none Option.none 5 exampleCandleQuery rfl⟩

/-- Supplementary: the statement-construction step of `fetch_candles` binds
the values in the fixed order symbol, time frame, optional exchange,
optional start bound, optional end bound, limit — user-supplied values
appear only in the parameter list, never in the statement text, whose shape
depends only on which optional arguments are present. -/
theorem buildCandleQuery_params_order :
    ∀ (cfg : RepoConfig) (symbol time_frame : String)
      (exchange start_timestamp end_timestamp : Option String) (limit : Int) (q : Query),
      buildCandleQuery cfg symbol time_frame exchange start_timestamp end_timestamp limit
          = Except.ok q →
      q.params = [PyValue.str symbol, PyValue.str time_frame]
          ++ (match exchange with | some e => [PyValue.str e] | Option.none => [])
          ++ (match start_timestamp with | some v => [PyValue.str v] | Option.none => [])
          ++ (match end_timestamp with | some v => [PyValue.str v] | Option.none => [])
          ++ [PyValue.int limit] := by
  intro cfg symbol time_frame exchange st en limit q h
  obtain ⟨tb, sc, tfc, tsc, ec⟩ := cfg
  cases exchange with
  | none =>
    cases st <;> cases en <;> (injection h with h2; subst h2; rfl)
  | some ex =>
    cases ec with
    | none => exact Except.noConfusion h
    | some col =>
      cases st <;> cases en <;> (injection h with h2; subst h2; rfl)

/-- Supplementary: the mapping the normalizer intends (per its docstring and
the spec table) is idempotent, and fixes canonical labels such as "1D". -/
theorem normalize_time_frame_intended_idempotent (value : String) :
    normalize_time_frame_intended (normalize_time_frame_intended value)
      = normalize_time_frame_intended value := by
  by_cases h1 : value == "1" <;> by_cases h5 : value == "5" <;>
    by_cases h15 : value == "15" <;> by_cases h30 : value == "30" <;>
    by_cases h45 : value == "45" <;> by_cases h60 : value == "60" <;>
    simp [normalize_time_frame_intended, h1, h5, h15, h30, h45, h60]
